import Mathlib

/-!
Shallow embedding of the quantitative core of the portfolio-risk-flamegraph
repository (src/backend/decomposition.py and src/backend/factor_pipeline.py),
together with theorems settling the frozen claims about its specification.

Python floats are modelled as exact rationals (ℚ); the one genuinely real-valued
quantity (the annualized volatility, which involves a square root) is modelled
over ℝ.  Python's `round(x, 2)` (banker's rounding, round-half-to-even) is
modelled exactly by `round2` below.  Pandas/numpy series are modelled as lists;
missing values (NaN) as `Option`.
-/

namespace PortfolioRisk

open Matrix

/-- Round-half-to-even to an integer, the semantics of Python's built-in
`round` on exact values (ties go to the even integer). -/
def roundHalfEven {α : Type} [LinearOrderedField α] [FloorRing α] (x : α) : ℤ :=
  if x - ⌊x⌋ < 1/2 then ⌊x⌋
  else if 1/2 < x - ⌊x⌋ then ⌊x⌋ + 1
  else if ⌊x⌋ % 2 = 0 then ⌊x⌋ else ⌊x⌋ + 1

/-- Python's `round(x, 2)`: round-half-to-even at two decimal places. -/
def round2 {α : Type} [LinearOrderedField α] [FloorRing α] (x : α) : α :=
  ((roundHalfEven (x * 100) : ℤ) : α) / 100

/-- The inputs of `decompose_portfolio_variance`, in the order of
`tickers = list(weights.keys())`: per-instrument weight, the three factor
loadings (`betas[t]["beta_mkt"|"beta_smb"|"beta_hml"]`) and the residual
variance (`residual_vars`). -/
structure PortfolioInputs (n : ℕ) where
  tickers : Fin n → String
  weights : Fin n → ℚ
  beta_mkt : Fin n → ℚ
  beta_smb : Fin n → ℚ
  beta_hml : Fin n → ℚ
  residual_vars : Fin n → ℚ

/-- The `B` matrix: `n_stocks × 3` factor loadings. -/
def B {n : ℕ} (p : PortfolioInputs n) : Matrix (Fin n) (Fin 3) ℚ :=
  Matrix.of fun i => ![p.beta_mkt i, p.beta_smb i, p.beta_hml i]

/-- The `D` matrix: diagonal of idiosyncratic variances
(`np.diag([residual_vars.get(t, 0.0) ...])`). -/
def D {n : ℕ} (p : PortfolioInputs n) : Matrix (Fin n) (Fin n) ℚ :=
  Matrix.diagonal p.residual_vars

/-- Systematic covariance `B·F·Bᵀ`. -/
def systematicCov {n : ℕ} (p : PortfolioInputs n) (F : Matrix (Fin 3) (Fin 3) ℚ) :
    Matrix (Fin n) (Fin n) ℚ :=
  B p * F * (B p)ᵀ

/-- Total covariance `Σ = B·F·Bᵀ + D`. -/
def sigma {n : ℕ} (p : PortfolioInputs n) (F : Matrix (Fin 3) (Fin 3) ℚ) :
    Matrix (Fin n) (Fin n) ℚ :=
  systematicCov p F + D p

/-- Total portfolio variance `w^T · Σ · w`. -/
def totalVar {n : ℕ} (p : PortfolioInputs n) (F : Matrix (Fin 3) (Fin 3) ℚ) : ℚ :=
  p.weights ⬝ᵥ (sigma p F *ᵥ p.weights)

/-- Column `k` of the loading matrix (`b_k = B[:, k]`). -/
def bcol {n : ℕ} (p : PortfolioInputs n) (k : Fin 3) : Fin n → ℚ :=
  fun i => B p i k

/-- Pure factor-`k` variance contribution, clamped at 0:
`max(float((w * b_k) @ (w * b_k)) * var_k, 0.0)`. -/
def rawContrib {n : ℕ} (p : PortfolioInputs n) (F : Matrix (Fin 3) (Fin 3) ℚ)
    (k : Fin 3) : ℚ :=
  max (((fun i => p.weights i * bcol p k i) ⬝ᵥ fun i => p.weights i * bcol p k i)
        * F k k) 0

/-- `pure_factor_sum = sum(raw_contributions.values())`. -/
def pureFactorSum {n : ℕ} (p : PortfolioInputs n) (F : Matrix (Fin 3) (Fin 3) ℚ) : ℚ :=
  ∑ k : Fin 3, rawContrib p F k

/-- `total_systematic = w^T · (B F Bᵀ) · w`. -/
def totalSystematic {n : ℕ} (p : PortfolioInputs n) (F : Matrix (Fin 3) (Fin 3) ℚ) : ℚ :=
  p.weights ⬝ᵥ (systematicCov p F *ᵥ p.weights)

/-- `cross_terms = total_systematic - pure_factor_sum`. -/
def crossTerms {n : ℕ} (p : PortfolioInputs n) (F : Matrix (Fin 3) (Fin 3) ℚ) : ℚ :=
  totalSystematic p F - pureFactorSum p F

/-- Idiosyncratic contribution `w^T · D · w`. -/
def idioVar {n : ℕ} (p : PortfolioInputs n) : ℚ :=
  p.weights ⬝ᵥ (D p *ᵥ p.weights)

/-- Factor contribution after the cross-term apportionment loop:
when `pure_factor_sum > 0 and cross_terms != 0`, each factor absorbs
`cross_terms * (raw_contributions[name] / pure_factor_sum)`. -/
def apportioned {n : ℕ} (p : PortfolioInputs n) (F : Matrix (Fin 3) (Fin 3) ℚ)
    (k : Fin 3) : ℚ :=
  if 0 < pureFactorSum p F ∧ crossTerms p F ≠ 0 then
    rawContrib p F k + crossTerms p F * (rawContrib p F k / pureFactorSum p F)
  else rawContrib p F k

/-- The four bucket percentages before clamping, in the order
market, smb, hml, idiosyncratic: `(contribution / total_var) * 100`. -/
def bucketPct {n : ℕ} (p : PortfolioInputs n) (F : Matrix (Fin 3) (Fin 3) ℚ) :
    Fin 4 → ℚ :=
  ![apportioned p F 0 / totalVar p F * 100,
    apportioned p F 1 / totalVar p F * 100,
    apportioned p F 2 / totalVar p F * 100,
    idioVar p / totalVar p F * 100]

/-- Clamped percentages: `max(pct, 0)`. -/
def clampedPcts {n : ℕ} (p : PortfolioInputs n) (F : Matrix (Fin 3) (Fin 3) ℚ)
    (i : Fin 4) : ℚ :=
  max (bucketPct p F i) 0

/-- `total_raw = sum(raw_pcts.values())`. -/
def totalRaw {n : ℕ} (p : PortfolioInputs n) (F : Matrix (Fin 3) (Fin 3) ℚ) : ℚ :=
  ∑ i : Fin 4, clampedPcts p F i

/-- Renormalized percentage: when `total_raw > 0` every clamped percentage is
multiplied by `scale = 100.0 / total_raw`. -/
def finalPct {n : ℕ} (p : PortfolioInputs n) (F : Matrix (Fin 3) (Fin 3) ℚ)
    (i : Fin 4) : ℚ :=
  if 0 < totalRaw p F then clampedPcts p F i * (100 / totalRaw p F)
  else clampedPcts p F i

/-- Per-stock entry of `stock_contributions` (`_compute_stock_contributions`). -/
structure StockContribution where
  ticker : String
  market_contribution : ℚ
  smb_contribution : ℚ
  hml_contribution : ℚ
  idio_contribution : ℚ
  weight : ℚ
deriving DecidableEq, Repr

/-- Stock `i`'s raw (unclamped, unscaled) contribution for factor `k`:
`w[i] * B[i, k] * float(w @ B[:, k]) * F[k, k]`. -/
def perStock {n : ℕ} (p : PortfolioInputs n) (F : Matrix (Fin 3) (Fin 3) ℚ)
    (k : Fin 3) (i : Fin n) : ℚ :=
  p.weights i * B p i k * (p.weights ⬝ᵥ fun j => B p j k) * F k k

/-- Stock `i`'s raw idiosyncratic contribution: `(w[i] ** 2) * D[i, i]`. -/
def perStockIdio {n : ℕ} (p : PortfolioInputs n) (i : Fin n) : ℚ :=
  p.weights i ^ 2 * D p i i

/-- One record of `_compute_stock_contributions`: each field is
`max(float(contrib / total_var * 100), 0) if total_var > 0 else 0`. -/
def stockContrib {n : ℕ} (p : PortfolioInputs n) (F : Matrix (Fin 3) (Fin 3) ℚ)
    (i : Fin n) : StockContribution where
  ticker := p.tickers i
  market_contribution :=
    if 0 < totalVar p F then max (perStock p F 0 i / totalVar p F * 100) 0 else 0
  smb_contribution :=
    if 0 < totalVar p F then max (perStock p F 1 i / totalVar p F * 100) 0 else 0
  hml_contribution :=
    if 0 < totalVar p F then max (perStock p F 2 i / totalVar p F * 100) 0 else 0
  idio_contribution :=
    if 0 < totalVar p F then max (perStockIdio p i / totalVar p F * 100) 0 else 0
  weight := p.weights i

/-- The result dictionary of `decompose_portfolio_variance`.  The
`cross_factor_pct` key is absent from the dictionary built by `_zero_result`,
hence an `Option`.  The annualized volatility involves a real square root and
is modelled by the separate function `totalAnnualVol`. -/
structure VarianceDecomposition where
  market_pct : ℚ
  smb_pct : ℚ
  hml_pct : ℚ
  idiosyncratic_pct : ℚ
  cross_factor_pct : Option ℚ
  total_daily_var : ℚ
  stock_contributions : List StockContribution
deriving DecidableEq, Repr

/-- `_zero_result(tickers, weights)`: the fixed fallback for degenerate
portfolios. -/
def zeroResult {n : ℕ} (p : PortfolioInputs n) : VarianceDecomposition where
  market_pct := 25
  smb_pct := 25
  hml_pct := 25
  idiosyncratic_pct := 25
  cross_factor_pct := none
  total_daily_var := 0
  stock_contributions :=
    (List.finRange n).map fun i =>
      { ticker := p.tickers i, market_contribution := 0, smb_contribution := 0,
        hml_contribution := 0, idio_contribution := 0, weight := p.weights i }

/-- `decompose_portfolio_variance` (its rational-valued fields; the annualized
volatility is `totalAnnualVol`). -/
def decompose {n : ℕ} (p : PortfolioInputs n) (F : Matrix (Fin 3) (Fin 3) ℚ) :
    VarianceDecomposition :=
  if totalVar p F ≤ 0 then zeroResult p
  else
    { market_pct := round2 (finalPct p F 0)
      smb_pct := round2 (finalPct p F 1)
      hml_pct := round2 (finalPct p F 2)
      idiosyncratic_pct := round2 (finalPct p F 3)
      cross_factor_pct :=
        some (if 0 < totalVar p F then round2 (crossTerms p F / totalVar p F * 100)
              else 0)
      total_daily_var := totalVar p F
      stock_contributions := (List.finRange n).map (stockContrib p F) }

/-- The `total_annual_vol` entry: `0.0` in the degenerate fallback, otherwise
`round(float(np.sqrt(total_var * 252) * 100), 2)`. -/
noncomputable def totalAnnualVol {n : ℕ} (p : PortfolioInputs n)
    (F : Matrix (Fin 3) (Fin 3) ℚ) : ℝ :=
  if totalVar p F ≤ 0 then 0
  else round2 (Real.sqrt ((totalVar p F : ℝ) * 252) * 100)

/-- Weights scaled by a constant `c`, all other inputs unchanged. -/
def scaleWeights {n : ℕ} (p : PortfolioInputs n) (c : ℚ) : PortfolioInputs n :=
  { p with weights := fun i => c * p.weights i }

/- ---------------- factor_pipeline.py: the regression engine ---------------- -/

/-- One row of the Fama-French factor dataframe `ff_df` (date plus the three
factor columns; `none` models a missing value / NaN). -/
structure FFRow where
  date : ℕ
  mkt : Option ℚ
  smb : Option ℚ
  hml : Option ℚ
deriving DecidableEq, Repr

/-- The result dictionary of `run_factor_regression`. -/
structure RegressionResult where
  ticker : String
  beta_mkt : ℚ
  beta_smb : ℚ
  beta_hml : ℚ
  alpha : ℚ
  r_squared : ℚ
  residual_variance : ℚ
  n_observations : ℕ
  sufficient_data : Bool
deriving DecidableEq, Repr

/-- `_empty_result(ticker)`. -/
def emptyResult (ticker : String) : RegressionResult where
  ticker := ticker
  beta_mkt := 0
  beta_smb := 0
  beta_hml := 0
  alpha := 0
  r_squared := 0
  residual_variance := 0
  n_observations := 0
  sufficient_data := false

/-- Outcome of a successful `sm.OLS(y, X_const).fit()`: the four coefficients
(`params[0]` is the intercept), the R² and the residual series. -/
structure OLSFit where
  alpha : ℚ
  beta_mkt : ℚ
  beta_smb : ℚ
  beta_hml : ℚ
  r_squared : ℚ
  resid : List ℚ
deriving DecidableEq, Repr

/-- The design rows handed to the OLS fit: for each usable date the
(possibly missing) `Mkt-RF`, `SMB`, `HML` values. -/
def DesignRow : Type := Option ℚ × Option ℚ × Option ℚ

/-- A fallible OLS fitter: `none` models `sm.OLS(...).fit()` raising, which the
source wraps in `try/except`. -/
def OLSFitter : Type := List ℚ → List DesignRow → Option OLSFit

/-- `np.mean` of a list (only ever used on nonempty lists in the source). -/
def meanList (l : List ℚ) : ℚ := l.sum / (l.length : ℚ)

/-- `np.var(l)` — population variance (`ddof=0`): mean of squared deviations
from the mean. -/
def popVar (l : List ℚ) : ℚ :=
  ((l.map fun v => (v - meanList l) ^ 2).sum) / (l.length : ℚ)

/-- Last `k` entries of a list (pandas `tail(k)` / `l[-k:]`). -/
def takeLast {α : Type} (l : List α) (k : ℕ) : List α :=
  l.drop (l.length - k)

/-- Dates of non-missing entries of the excess-return series
(`excess_returns.dropna().index`). -/
def validDates (excess : List (ℕ × Option ℚ)) : List ℕ :=
  (excess.filter fun e => e.2.isSome).map fun e => e.1

/-- Intersection with the factor dates (`.intersection(ff_df.index)`). -/
def commonDates (excess : List (ℕ × Option ℚ)) (ff : List FFRow) : List ℕ :=
  (validDates excess).filter fun dt => (ff.map fun r => r.date).contains dt

/-- `common.sort_values()`: ascending (stable) sort of the common dates. -/
def sortedCommon (excess : List (ℕ × Option ℚ)) (ff : List FFRow) : List ℕ :=
  List.insertionSort (· ≤ ·) (commonDates excess ff)

/-- `if len(common) > window: common = common[-window:]` — the trailing window
of most-recent dates. -/
def usableDates (excess : List (ℕ × Option ℚ)) (ff : List FFRow)
    (window : ℕ) : List ℕ :=
  if window < (sortedCommon excess ff).length then
    takeLast (sortedCommon excess ff) window
  else sortedCommon excess ff

/-- Value of the excess-return series at a date. -/
def lookupExcess (excess : List (ℕ × Option ℚ)) (dt : ℕ) : Option ℚ :=
  match excess.find? fun e => decide (e.1 = dt) with
  | some e => e.2
  | none => none

/-- `y = excess_returns.loc[common].values`. -/
def yOf (excess : List (ℕ × Option ℚ)) (ff : List FFRow) (window : ℕ) : List ℚ :=
  (usableDates excess ff window).filterMap fun dt => lookupExcess excess dt

/-- `X = ff_df.loc[common, ["Mkt-RF", "SMB", "HML"]].values`. -/
def xOf (excess : List (ℕ × Option ℚ)) (ff : List FFRow) (window : ℕ) :
    List DesignRow :=
  (usableDates excess ff window).filterMap fun dt =>
    (ff.find? fun r => decide (r.date = dt)).map fun r => (r.mkt, r.smb, r.hml)

/-- `n_obs = len(y)`. -/
def nObs (excess : List (ℕ × Option ℚ)) (ff : List FFRow) (window : ℕ) : ℕ :=
  (yOf excess ff window).length

/-- `run_factor_regression(ticker, excess_returns, ff_df, window, min_obs)`,
parameterized by the (fallible) OLS fitter. -/
def runFactorRegression (fit : OLSFitter) (ticker : String)
    (excess : List (ℕ × Option ℚ)) (ff : List FFRow)
    (window : ℕ) (min_obs : ℕ) : RegressionResult :=
  if (sortedCommon excess ff).length = 0 then emptyResult ticker
  else if nObs excess ff window < min_obs then
    { ticker := ticker, beta_mkt := 0, beta_smb := 0, beta_hml := 0, alpha := 0,
      r_squared := 0,
      residual_variance :=
        if 0 < (yOf excess ff window).length then popVar (yOf excess ff window)
        else 0,
      n_observations := nObs excess ff window, sufficient_data := false }
  else
    match fit (yOf excess ff window) (xOf excess ff window) with
    | none => emptyResult ticker
    | some m =>
      { ticker := ticker, beta_mkt := m.beta_mkt, beta_smb := m.beta_smb,
        beta_hml := m.beta_hml, alpha := m.alpha, r_squared := m.r_squared,
        residual_variance := popVar m.resid,
        n_observations := nObs excess ff window, sufficient_data := true }

/- ------------- decomposition.py: compute_factor_covariance ------------- -/

/-- Rows of `ff_df[["Mkt-RF", "SMB", "HML"]].dropna()`: the jointly-valid
(non-missing in all three factors) observations. -/
def jointValid (ff : List FFRow) : List (ℚ × ℚ × ℚ) :=
  ff.filterMap fun r =>
    match r.mkt, r.smb, r.hml with
    | some a, some b, some c => some (a, b, c)
    | _, _, _ => none

/-- `recent = ff_df[factor_cols].dropna().tail(window)`. -/
def recentValid (ff : List FFRow) (window : ℕ) : List (ℚ × ℚ × ℚ) :=
  takeLast (jointValid ff) window

/-- Component `k` of a joint factor observation. -/
def obsCol (k : Fin 3) (r : ℚ × ℚ × ℚ) : ℚ := ![r.1, r.2.1, r.2.2] k

/-- `recent.cov().values`: the 3×3 sample covariance matrix (pandas `cov`,
`ddof=1`: sums of products of deviations divided by `N - 1`). -/
def sampleCov (rows : List (ℚ × ℚ × ℚ)) : Matrix (Fin 3) (Fin 3) ℚ :=
  Matrix.of fun j k =>
    (List.zipWith
      (fun a b => (a - meanList (rows.map (obsCol j)))
                * (b - meanList (rows.map (obsCol k))))
      (rows.map (obsCol j)) (rows.map (obsCol k))).sum
    / ((rows.length : ℚ) - 1)

/-- `compute_factor_covariance(ff_df, window)`: raises (`Except.error`) when
fewer than 60 jointly-valid observations remain in the trailing window. -/
def computeFactorCovariance (ff : List FFRow) (window : ℕ) :
    Except String (Matrix (Fin 3) (Fin 3) ℚ) :=
  if (recentValid ff window).length < 60 then
    Except.error ("Insufficient factor data")
  else Except.ok (sampleCov (recentValid ff window))

/- ------------- decomposition.py: build_flamegraph_json ------------- -/

/-- The per-ticker loadings dictionary consumed by `build_flamegraph_json`
(`betas[ticker]["beta_mkt" | "beta_smb" | "beta_hml" | "r_squared"]`). -/
structure BetaInfo where
  beta_mkt : ℚ
  beta_smb : ℚ
  beta_hml : ℚ
  r_squared : ℚ
deriving DecidableEq, Repr

/-- A leaf of the flamegraph: one instrument under a factor bucket, with its
`meta` fields inlined. -/
structure FlameLeaf where
  name : String
  value : ℚ
  beta_mkt : ℚ
  beta_smb : ℚ
  beta_hml : ℚ
  r_squared : ℚ
  weight : ℚ
deriving DecidableEq, Repr

/-- A factor-bucket node of the flamegraph. -/
structure FlameNode where
  name : String
  value : ℚ
  factor : String
  children : List FlameLeaf
deriving DecidableEq, Repr

/-- The root of the flamegraph (its `name` string formats the annualized
volatility and carries no further structure, so it is not modelled). -/
structure Flamegraph where
  value : ℚ
  children : List FlameNode
deriving DecidableEq, Repr

/-- Descending-by-`value` order on leaves (`sorted(..., reverse=True)`). -/
def leafGE (a b : FlameLeaf) : Prop := b.value ≤ a.value

instance : DecidableRel leafGE := fun a b =>
  inferInstanceAs (Decidable (b.value ≤ a.value))

instance : IsTotal FlameLeaf leafGE := ⟨fun a b => le_total b.value a.value⟩

instance : IsTrans FlameLeaf leafGE := ⟨fun _ _ _ h1 h2 => le_trans h2 h1⟩

/-- The leaf built for one stock contribution: name, rounded value, and the
`meta` dictionary (loadings, R², weight). -/
def leafOf (betas : String → BetaInfo) (key : StockContribution → ℚ)
    (c : StockContribution) : FlameLeaf where
  name := c.ticker
  value := round2 (key c)
  beta_mkt := (betas c.ticker).beta_mkt
  beta_smb := (betas c.ticker).beta_smb
  beta_hml := (betas c.ticker).beta_hml
  r_squared := (betas c.ticker).r_squared
  weight := c.weight

/-- `make_factor_children(factor_key)`: keep stocks whose contribution exceeds
0.5, then sort descending by value (Python's `sorted` is stable). -/
def makeFactorChildren (sc : List StockContribution) (betas : String → BetaInfo)
    (key : StockContribution → ℚ) : List FlameLeaf :=
  List.insertionSort leafGE
    ((sc.filter fun c => decide ((1 : ℚ)/2 < key c)).map (leafOf betas key))

/-- `build_flamegraph_json(decomposition, betas)`. -/
def buildFlamegraphJson (d : VarianceDecomposition)
    (betas : String → BetaInfo) : Flamegraph where
  value := 100
  children :=
    [{ name := "Market Beta", value := d.market_pct, factor := "market",
       children := makeFactorChildren d.stock_contributions betas
         fun c => c.market_contribution },
     { name := "SMB (Size)", value := d.smb_pct, factor := "smb",
       children := makeFactorChildren d.stock_contributions betas
         fun c => c.smb_contribution },
     { name := "HML (Value)", value := d.hml_pct, factor := "hml",
       children := makeFactorChildren d.stock_contributions betas
         fun c => c.hml_contribution },
     { name := "Idiosyncratic", value := d.idiosyncratic_pct,
       factor := "idiosyncratic",
       children := makeFactorChildren d.stock_contributions betas
         fun c => c.idio_contribution }]

/- ------------- concrete inputs for witnesses and counterexamples ------------- -/

/-- Ticker name used by concrete instances. -/
def tickA : String := "A"

/-- Second ticker name used by concrete instances. -/
def tickB : String := "B"

/-- One instrument, weight 1, unit loadings, no residual variance. -/
def p1 : PortfolioInputs 1 where
  tickers := fun _ => tickA
  weights := fun _ => 1
  beta_mkt := fun _ => 1
  beta_smb := fun _ => 1
  beta_hml := fun _ => 1
  residual_vars := fun _ => 0

/-- Diagonal factor covariance with equal variances. -/
def F1 : Matrix (Fin 3) (Fin 3) ℚ := Matrix.diagonal ![3, 3, 3]

/-- One instrument with weight 0 (degenerate portfolio). -/
def p0 : PortfolioInputs 1 where
  tickers := fun _ => tickA
  weights := fun _ => 0
  beta_mkt := fun _ => 1
  beta_smb := fun _ => 1
  beta_hml := fun _ => 1
  residual_vars := fun _ => 1

/-- One instrument, weight 1, market loading only, no residual variance. -/
def pc : PortfolioInputs 1 where
  tickers := fun _ => tickA
  weights := fun _ => 1
  beta_mkt := fun _ => 1
  beta_smb := fun _ => 0
  beta_hml := fun _ => 0
  residual_vars := fun _ => 0

/-- Factor covariance giving total daily variance `1/126` for `pc`. -/
def Fc : Matrix (Fin 3) (Fin 3) ℚ := !![1/126, 0, 0; 0, 0, 0; 0, 0, 0]

/-- An OLS fitter that always fails (models `sm.OLS(...).fit()` raising). -/
def fitNone : OLSFitter := fun _ _ => none

/-- Three observations of excess returns with nonzero variance. -/
def excess3 : List (ℕ × Option ℚ) := [(0, some 1), (1, some 3), (2, some 5)]

/-- Factor rows for the same three dates. -/
def ff3 : List FFRow :=
  [{ date := 0, mkt := some 0, smb := some 0, hml := some 0 },
   { date := 1, mkt := some 0, smb := some 0, hml := some 0 },
   { date := 2, mkt := some 0, smb := some 0, hml := some 0 }]

/-- Sixty observations of excess returns alternating 0 and 1
(population variance `1/4`). -/
def excess60 : List (ℕ × Option ℚ) :=
  (List.range 60).map fun i => (i, some (if i % 2 = 0 then 0 else 1))

/-- Factor rows for the same sixty dates. -/
def ff60 : List FFRow :=
  (List.range 60).map fun i => { date := i, mkt := some 0, smb := some 0, hml := some 0 }

/-- Only ten jointly-valid factor rows — below the covariance threshold. -/
def ffSmall : List FFRow :=
  (List.range 10).map fun i => { date := i, mkt := some 1, smb := some 0, hml := some 0 }

/-- Per-ticker loadings dictionary for flamegraph instances. -/
def b0 : String → BetaInfo := fun _ => { beta_mkt := 1, beta_smb := 2, beta_hml := 3, r_squared := 1/2 }

/-- A stock contribution above the visibility threshold for the market bucket. -/
def scA : StockContribution :=
  { ticker := tickA, market_contribution := 5, smb_contribution := 3/10,
    hml_contribution := 7/10, idio_contribution := 2, weight := 1/2 }

/-- A stock contribution above the threshold only for the market bucket. -/
def scB : StockContribution :=
  { ticker := tickB, market_contribution := 1, smb_contribution := 0,
    hml_contribution := 0, idio_contribution := 0, weight := 1/2 }

/-- A two-stock contribution list. -/
def sc0 : List StockContribution := [scA, scB]

/-- A concrete decomposition result feeding the flamegraph builder. -/
def d0 : VarianceDecomposition :=
  { market_pct := 10, smb_pct := 20, hml_pct := 30, idiosyncratic_pct := 40,
    cross_factor_pct := none, total_daily_var := 1, stock_contributions := sc0 }

/-- The market-bucket leaf built for `scA`. -/
def leaf0 : FlameLeaf := leafOf b0 (fun c => c.market_contribution) scA

/- ---------------------- general helper lemmas ---------------------- -/

/-- Round-half-to-even moves a value by at most `1/2`. -/
lemma abs_roundHalfEven_sub {α : Type} [LinearOrderedField α] [FloorRing α]
    (x : α) : |((roundHalfEven x : ℤ) : α) - x| ≤ 1/2 := by
  have hfl : ((⌊x⌋ : ℤ) : α) ≤ x := Int.floor_le x
  have hlt : x < ((⌊x⌋ : ℤ) : α) + 1 := Int.lt_floor_add_one x
  unfold roundHalfEven
  split_ifs with h1 h2 h3 <;>
    rw [abs_le] <;> push_cast <;> constructor <;> linarith

/-- Rounding to two decimals moves a value by at most `1/200`. -/
lemma abs_round2_sub {α : Type} [LinearOrderedField α] [FloorRing α]
    (x : α) : |round2 x - x| ≤ 1/200 := by
  have h := abs_roundHalfEven_sub (x * 100)
  unfold round2
  have hx : ((roundHalfEven (x * 100) : ℤ) : α) / 100 - x
      = (((roundHalfEven (x * 100) : ℤ) : α) - x * 100) / 100 := by ring
  rw [hx, abs_div]
  rw [show |(100 : α)| = 100 by norm_num]
  linarith [h, abs_nonneg (((roundHalfEven (x * 100) : ℤ) : α) - x * 100)]

/-- In the non-degenerate branch, `decompose` returns the dictionary built at
the end of `decompose_portfolio_variance`. -/
lemma decompose_of_pos {n : ℕ} (p : PortfolioInputs n)
    (F : Matrix (Fin 3) (Fin 3) ℚ) (h : 0 < totalVar p F) :
    decompose p F =
      { market_pct := round2 (finalPct p F 0)
        smb_pct := round2 (finalPct p F 1)
        hml_pct := round2 (finalPct p F 2)
        idiosyncratic_pct := round2 (finalPct p F 3)
        cross_factor_pct := some (round2 (crossTerms p F / totalVar p F * 100))
        total_daily_var := totalVar p F
        stock_contributions := (List.finRange n).map (stockContrib p F) } := by
  rw [decompose, if_neg (not_le.mpr h), if_pos h]

/-- In the degenerate branch, `decompose` returns the `_zero_result` fallback. -/
lemma decompose_of_nonpos {n : ℕ} (p : PortfolioInputs n)
    (F : Matrix (Fin 3) (Fin 3) ℚ) (h : totalVar p F ≤ 0) :
    decompose p F = zeroResult p := by
  rw [decompose, if_pos h]

/- ---------------------- evaluation lemmas: p1 / F1 ---------------------- -/

lemma totalVar_p1F1 : totalVar p1 F1 = 9 := by
  simp [totalVar, sigma, systematicCov, B, D, p1, F1, dotProduct, Matrix.mulVec,
    Matrix.mul_apply, Fin.sum_univ_three, Fin.sum_univ_one, Matrix.diagonal]
  norm_num

lemma totalSystematic_p1F1 : totalSystematic p1 F1 = 9 := by
  simp [totalSystematic, systematicCov, B, p1, F1, dotProduct, Matrix.mulVec,
    Matrix.mul_apply, Fin.sum_univ_three, Fin.sum_univ_one, Matrix.diagonal]
  norm_num

lemma rawContrib_p1F1 (k : Fin 3) : rawContrib p1 F1 k = 3 := by
  fin_cases k <;>
    simp [rawContrib, bcol, B, p1, F1, dotProduct, Fin.sum_univ_one,
      Matrix.diagonal]

lemma pureFactorSum_p1F1 : pureFactorSum p1 F1 = 9 := by
  simp [pureFactorSum, Fin.sum_univ_three, rawContrib_p1F1]
  norm_num

lemma crossTerms_p1F1 : crossTerms p1 F1 = 0 := by
  rw [crossTerms, totalSystematic_p1F1, pureFactorSum_p1F1]
  norm_num

lemma idioVar_p1 : idioVar p1 = 0 := by
  simp [idioVar, D, p1, dotProduct, Matrix.mulVec, Fin.sum_univ_one,
    Matrix.diagonal]

lemma apportioned_p1F1 (k : Fin 3) : apportioned p1 F1 k = 3 := by
  rw [apportioned, if_neg, rawContrib_p1F1]
  rw [crossTerms_p1F1]
  simp

lemma totalRaw_p1F1 : totalRaw p1 F1 = 100 := by
  have hb : ∀ i, bucketPct p1 F1 i = ![100/3, 100/3, 100/3, 0] i := by
    intro i
    fin_cases i <;>
      simp [bucketPct, apportioned_p1F1, totalVar_p1F1, idioVar_p1] <;> norm_num
  simp [totalRaw, clampedPcts, Fin.sum_univ_four, hb]
  norm_num

lemma finalPct_p1F1 (i : Fin 4) :
    finalPct p1 F1 i = ![100/3, 100/3, 100/3, 0] i := by
  have hb : bucketPct p1 F1 i = ![100/3, 100/3, 100/3, 0] i := by
    fin_cases i <;>
      simp [bucketPct, apportioned_p1F1, totalVar_p1F1, idioVar_p1] <;> norm_num
  rw [finalPct, if_pos (by rw [totalRaw_p1F1]; norm_num), clampedPcts, hb,
    totalRaw_p1F1]
  fin_cases i <;> norm_num

lemma round2_hundred_thirds : round2 ((100 : ℚ)/3) = 3333/100 := by
  have hfl : ⌊(100 : ℚ)/3 * 100⌋ = 3333 := by
    rw [Int.floor_eq_iff]
    norm_num
  rw [round2, roundHalfEven, hfl, if_pos (by norm_num)]
  norm_num

lemma round2_zeroQ : round2 (0 : ℚ) = 0 := by
  have hfl : ⌊(0 : ℚ) * 100⌋ = 0 := by norm_num
  rw [round2, roundHalfEven, hfl, if_pos (by norm_num)]
  norm_num

lemma totalVar_p1F1_pos : 0 < totalVar p1 F1 := by
  rw [totalVar_p1F1]; norm_num

lemma decompose_p1F1_market : (decompose p1 F1).market_pct = 3333/100 := by
  rw [decompose_of_pos p1 F1 totalVar_p1F1_pos]
  simp [finalPct_p1F1, round2_hundred_thirds]

lemma decompose_p1F1_smb : (decompose p1 F1).smb_pct = 3333/100 := by
  rw [decompose_of_pos p1 F1 totalVar_p1F1_pos]
  simp [finalPct_p1F1, round2_hundred_thirds]

lemma decompose_p1F1_hml : (decompose p1 F1).hml_pct = 3333/100 := by
  rw [decompose_of_pos p1 F1 totalVar_p1F1_pos]
  simp [finalPct_p1F1, round2_hundred_thirds]

lemma decompose_p1F1_idio : (decompose p1 F1).idiosyncratic_pct = 0 := by
  rw [decompose_of_pos p1 F1 totalVar_p1F1_pos]
  simp [finalPct_p1F1, round2_zeroQ]

/- ------------------- evaluation lemmas: p0, pc, regression ------------------- -/

lemma totalVar_p0F1 : totalVar p0 F1 = 0 := by
  simp [totalVar, sigma, systematicCov, B, D, p0, F1, dotProduct, Matrix.mulVec,
    Matrix.mul_apply, Fin.sum_univ_three, Fin.sum_univ_one, Matrix.diagonal]

lemma totalVar_pcFc : totalVar pc Fc = 1/126 := by
  simp [totalVar, sigma, systematicCov, B, D, pc, Fc, dotProduct, Matrix.mulVec,
    Matrix.mul_apply, Fin.sum_univ_three, Fin.sum_univ_one, Matrix.diagonal]

lemma yOf_excess3 : yOf excess3 ff3 252 = [1, 3, 5] := by decide

lemma popVar_135 : popVar ([1, 3, 5] : List ℚ) = 8/3 := by
  norm_num [popVar, meanList]

/- ------------------------------ the claims ------------------------------ -/

/-- Claim C2 (confirmed): whenever the total portfolio variance `wᵀΣw` is at
most 0, `decompose_portfolio_variance` returns the fixed fallback: all four
buckets equal 25, `total_annual_vol = 0`, `total_daily_var = 0`, and every
instrument's four contribution fields are 0 with its raw input weight still
reported. -/
theorem C2_degenerate_fallback {n : ℕ} (p : PortfolioInputs n)
    (F : Matrix (Fin 3) (Fin 3) ℚ) (h : totalVar p F ≤ 0) :
    (decompose p F).market_pct = 25 ∧ (decompose p F).smb_pct = 25 ∧
    (decompose p F).hml_pct = 25 ∧ (decompose p F).idiosyncratic_pct = 25 ∧
    totalAnnualVol p F = 0 ∧ (decompose p F).total_daily_var = 0 ∧
    (decompose p F).stock_contributions = (List.finRange n).map (fun i =>
      { ticker := p.tickers i, market_contribution := 0, smb_contribution := 0,
        hml_contribution := 0, idio_contribution := 0, weight := p.weights i }) := by
  rw [decompose_of_nonpos p F h]
  refine ⟨rfl, rfl, rfl, rfl, ?_, rfl, rfl⟩
  rw [totalAnnualVol, if_pos h]

/-- Witness for C2: the all-zero-weight portfolio `p0` is degenerate and gets
the fixed fallback. -/
theorem C2_degenerate_fallback_witness :
    totalVar p0 F1 ≤ 0 ∧
    ((decompose p0 F1).market_pct = 25 ∧ (decompose p0 F1).smb_pct = 25 ∧
     (decompose p0 F1).hml_pct = 25 ∧ (decompose p0 F1).idiosyncratic_pct = 25 ∧
     totalAnnualVol p0 F1 = 0 ∧ (decompose p0 F1).total_daily_var = 0 ∧
     (decompose p0 F1).stock_contributions = (List.finRange 1).map (fun i =>
       { ticker := p0.tickers i, market_contribution := 0, smb_contribution := 0,
         hml_contribution := 0, idio_contribution := 0, weight := p0.weights i })) :=
  ⟨totalVar_p0F1.le, C2_degenerate_fallback p0 F1 totalVar_p0F1.le⟩

/-- Claim C5 (confirmed): whenever the number of usable observations is below
`min_obs`, `run_factor_regression` returns the degenerate result — all betas
and alpha 0, `r_squared = 0`, `residual_variance` the population variance of
the available excess returns (0 if none), `sufficient_data = false` — for
every OLS fitter, i.e. regardless of the actual return values. -/
theorem C5_insufficient_observations (fit : OLSFitter) (ticker : String)
    (excess : List (ℕ × Option ℚ)) (ff : List FFRow) (window min_obs : ℕ)
    (h : nObs excess ff window < min_obs) :
    runFactorRegression fit ticker excess ff window min_obs =
      { ticker := ticker, beta_mkt := 0, beta_smb := 0, beta_hml := 0, alpha := 0,
        r_squared := 0,
        residual_variance :=
          if 0 < (yOf excess ff window).length then popVar (yOf excess ff window)
          else 0,
        n_observations := nObs excess ff window, sufficient_data := false } := by
  rw [runFactorRegression]
  by_cases h0 : (sortedCommon excess ff).length = 0
  · rw [if_pos h0]
    have hy : yOf excess ff window = [] := by
      have hc : sortedCommon excess ff = [] := List.length_eq_zero.mp h0
      rw [yOf, usableDates, hc]
      simp [takeLast]
    simp [emptyResult, hy, nObs]
  · rw [if_neg h0, if_pos h]

/-- Witness for C5: three observations `[1, 3, 5]` with the default
`min_obs = 60` yield the degenerate result with `residual_variance = 8/3`. -/
theorem C5_insufficient_observations_witness :
    nObs excess3 ff3 252 < 60 ∧
    runFactorRegression fitNone tickA excess3 ff3 252 60 =
      { ticker := tickA, beta_mkt := 0, beta_smb := 0, beta_hml := 0, alpha := 0,
        r_squared := 0, residual_variance := 8/3, n_observations := 3,
        sufficient_data := false } :=
  ⟨by decide,
   (C5_insufficient_observations fitNone tickA excess3 ff3 252 60 (by decide)).trans
     (by simp [nObs, yOf_excess3, popVar_135])⟩

/-- Claim C3, amended (corrected): when the OLS fit fails after the
minimum-observation check passed, `run_factor_regression` never raises and
returns `_empty_result` — all betas, alpha, R² and `residual_variance` 0 and
`n_observations` 0 — which is NOT the insufficient-data degenerate result:
that one reports the sample variance of the available returns and the actual
observation count. -/
theorem C3_fit_failure_empty_result (fit : OLSFitter) (ticker : String)
    (excess : List (ℕ × Option ℚ)) (ff : List FFRow) (window min_obs : ℕ)
    (h0 : (sortedCommon excess ff).length ≠ 0)
    (h1 : ¬ nObs excess ff window < min_obs)
    (h2 : fit (yOf excess ff window) (xOf excess ff window) = none) :
    runFactorRegression fit ticker excess ff window min_obs =
      emptyResult ticker := by
  rw [runFactorRegression, if_neg h0, if_neg h1, h2]

/-- Counterexample to C3 as stated: with observations `[1, 3, 5]` passing a
`min_obs = 2` check and a failing fit, the code returns
`residual_variance = 0` and `n_observations = 0`, not the insufficient-data
values (sample variance `8/3`, count 3). -/
theorem C3_counterexample :
    ¬ nObs excess3 ff3 252 < 2 ∧
    fitNone (yOf excess3 ff3 252) (xOf excess3 ff3 252) = none ∧
    popVar (yOf excess3 ff3 252) = 8/3 ∧ nObs excess3 ff3 252 = 3 ∧
    (runFactorRegression fitNone tickA excess3 ff3 252 2).residual_variance = 0 ∧
    (runFactorRegression fitNone tickA excess3 ff3 252 2).n_observations = 0 ∧
    ¬ ((runFactorRegression fitNone tickA excess3 ff3 252 2).residual_variance
         = popVar (yOf excess3 ff3 252) ∧
       (runFactorRegression fitNone tickA excess3 ff3 252 2).n_observations
         = nObs excess3 ff3 252) := by
  have hv : popVar (yOf excess3 ff3 252) = 8/3 := by
    rw [yOf_excess3]; exact popVar_135
  refine ⟨by decide, rfl, hv, by decide, by decide, by decide, ?_⟩
  rintro ⟨hr, hn⟩
  rw [hv] at hr
  have : (0 : ℚ) = 8/3 := by
    rw [← hr]; decide
  norm_num at this

/-- Witness for the amended C3. -/
theorem C3_fit_failure_empty_result_witness :
    (sortedCommon excess3 ff3).length ≠ 0 ∧ ¬ nObs excess3 ff3 252 < 2 ∧
    runFactorRegression fitNone tickA excess3 ff3 252 2 = emptyResult tickA :=
  ⟨by decide, by decide,
   C3_fit_failure_empty_result fitNone tickA excess3 ff3 252 2 (by decide)
     (by decide) rfl⟩

/-- Claim C6 (confirmed): `compute_factor_covariance` raises the
insufficient-data error exactly when fewer than 60 jointly-valid observations
remain in the trailing window; otherwise it returns the 3×3 sample covariance
matrix of those observations. -/
theorem C6_covariance_threshold (ff : List FFRow) (window : ℕ) :
    ((recentValid ff window).length < 60 →
      computeFactorCovariance ff window =
        Except.error ("Insufficient factor data")) ∧
    (60 ≤ (recentValid ff window).length →
      computeFactorCovariance ff window =
        Except.ok (sampleCov (recentValid ff window))) := by
  constructor
  · intro h
    rw [computeFactorCovariance, if_pos h]
  · intro h
    rw [computeFactorCovariance, if_neg (not_lt.mpr h)]

/-- Witness for C6: ten jointly-valid rows raise the error; sixty return the
sample covariance matrix. -/
theorem C6_covariance_threshold_witness :
    ((recentValid ffSmall 252).length < 60 ∧
      computeFactorCovariance ffSmall 252 =
        Except.error ("Insufficient factor data")) ∧
    (60 ≤ (recentValid ff60 252).length ∧
      computeFactorCovariance ff60 252 =
        Except.ok (sampleCov (recentValid ff60 252))) :=
  ⟨⟨by decide, (C6_covariance_threshold ffSmall 252).1 (by decide)⟩,
   ⟨by decide, (C6_covariance_threshold ff60 252).2 (by decide)⟩⟩

/-- Claim C8, amended (corrected): every non-degenerate result carries the
`cross_factor_pct` diagnostic — the signed pre-apportionment cross term as a
percentage of total variance, rounded to two decimals; the degenerate
`_zero_result` fallback omits the key. -/
theorem C8_cross_factor_diagnostic {n : ℕ} (p : PortfolioInputs n)
    (F : Matrix (Fin 3) (Fin 3) ℚ) (h : 0 < totalVar p F) :
    (decompose p F).cross_factor_pct =
      some (round2 (crossTerms p F / totalVar p F * 100)) := by
  rw [decompose_of_pos p F h]

/-- Counterexample to C8 as stated: the degenerate fallback for the
zero-weight portfolio `p0` has no `cross_factor_pct` entry. -/
theorem C8_counterexample :
    totalVar p0 F1 ≤ 0 ∧ (decompose p0 F1).cross_factor_pct = none := by
  refine ⟨totalVar_p0F1.le, ?_⟩
  rw [decompose_of_nonpos p0 F1 totalVar_p0F1.le]
  rfl

/-- Witness for the amended C8. -/
theorem C8_cross_factor_diagnostic_witness :
    0 < totalVar p1 F1 ∧
    (decompose p1 F1).cross_factor_pct =
      some (round2 (crossTerms p1 F1 / totalVar p1 F1 * 100)) :=
  ⟨totalVar_p1F1_pos, C8_cross_factor_diagnostic p1 F1 totalVar_p1F1_pos⟩

/-- Claim C4 (confirmed): with a positive pure-contribution sum, factor `k`
absorbs `cross_terms × raw_k / pure_sum`; with a zero pure-contribution sum
the cross term is apportioned to no bucket and appears only in the
`cross_factor_pct` diagnostic. -/
theorem C4_apportionment_policy {n : ℕ} (p : PortfolioInputs n)
    (F : Matrix (Fin 3) (Fin 3) ℚ) :
    (0 < pureFactorSum p F →
      ∀ k, apportioned p F k =
        rawContrib p F k +
          crossTerms p F * (rawContrib p F k / pureFactorSum p F)) ∧
    (pureFactorSum p F = 0 →
      (∀ k, apportioned p F k = rawContrib p F k) ∧
      (0 < totalVar p F →
        (decompose p F).cross_factor_pct =
          some (round2 (crossTerms p F / totalVar p F * 100)))) := by
  constructor
  · intro hp k
    by_cases hc : crossTerms p F = 0
    · rw [apportioned, if_neg (fun h => h.2 hc), hc]
      ring
    · rw [apportioned, if_pos ⟨hp, hc⟩]
  · intro hp
    refine ⟨fun k => ?_, fun hT => ?_⟩
    · rw [apportioned, if_neg (fun h => absurd (hp ▸ h.1) (lt_irrefl 0))]
    · rw [decompose_of_pos p F hT]

/-- Witness for C4: the equal-loading portfolio `p1` has positive pure sum and
its market bucket satisfies the apportionment identity. -/
theorem C4_apportionment_policy_witness :
    0 < pureFactorSum p1 F1 ∧
    apportioned p1 F1 0 =
      rawContrib p1 F1 0 +
        crossTerms p1 F1 * (rawContrib p1 F1 0 / pureFactorSum p1 F1) :=
  ⟨by rw [pureFactorSum_p1F1]; norm_num,
   (C4_apportionment_policy p1 F1).1 (by rw [pureFactorSum_p1F1]; norm_num) 0⟩

/-- Claim C1, amended (corrected): before the final two-decimal rounding the
four renormalized percentages sum to exactly 100 (whenever the clamped
percentage sum is positive, which the clamping can only violate for a
non-positive-semidefinite factor covariance); the returned rounded values sum
to 100 within 0.02. -/
theorem C1_buckets_sum {n : ℕ} (p : PortfolioInputs n)
    (F : Matrix (Fin 3) (Fin 3) ℚ) (hT : 0 < totalVar p F)
    (hR : 0 < totalRaw p F) :
    (∑ i : Fin 4, finalPct p F i = 100) ∧
    |(decompose p F).market_pct + (decompose p F).smb_pct +
      (decompose p F).hml_pct + (decompose p F).idiosyncratic_pct - 100|
      ≤ 1/50 := by
  have hsum : ∑ i : Fin 4, finalPct p F i = 100 := by
    have h1 : ∑ i : Fin 4, finalPct p F i
        = (∑ i : Fin 4, clampedPcts p F i) * (100 / totalRaw p F) := by
      simp only [finalPct, if_pos hR]
      rw [← Finset.sum_mul]
    rw [h1]
    have h2 : ∑ i : Fin 4, clampedPcts p F i = totalRaw p F := rfl
    rw [h2]
    field_simp
  refine ⟨hsum, ?_⟩
  rw [decompose_of_pos p F hT]
  have h0 := abs_round2_sub (finalPct p F 0)
  have h1 := abs_round2_sub (finalPct p F 1)
  have h2 := abs_round2_sub (finalPct p F 2)
  have h3 := abs_round2_sub (finalPct p F 3)
  rw [Fin.sum_univ_four] at hsum
  rw [abs_le] at h0 h1 h2 h3 ⊢
  constructor <;> simp only [] <;> [linarith; linarith]

/-- Counterexample to C1 as stated: for the equal-loading portfolio `p1`
(total variance 9 > 0) the four returned percentages are 33.33, 33.33, 33.33
and 0, summing to 99.99 — off from 100 by 0.01 > 1e-6 because each is rounded
to two decimals. -/
theorem C1_counterexample :
    totalVar p1 F1 = 9 ∧
    (decompose p1 F1).market_pct + (decompose p1 F1).smb_pct +
      (decompose p1 F1).hml_pct + (decompose p1 F1).idiosyncratic_pct
      = 9999/100 ∧
    ¬ |(decompose p1 F1).market_pct + (decompose p1 F1).smb_pct +
        (decompose p1 F1).hml_pct + (decompose p1 F1).idiosyncratic_pct - 100|
        ≤ 1/1000000 := by
  rw [decompose_p1F1_market, decompose_p1F1_smb, decompose_p1F1_hml,
    decompose_p1F1_idio, totalVar_p1F1]
  norm_num
  rw [abs_of_nonneg (by norm_num : (0 : ℚ) ≤ 1/100)]
  norm_num

/-- Witness for the amended C1. -/
theorem C1_buckets_sum_witness :
    0 < totalVar p1 F1 ∧ 0 < totalRaw p1 F1 ∧
    ((∑ i : Fin 4, finalPct p1 F1 i = 100) ∧
     |(decompose p1 F1).market_pct + (decompose p1 F1).smb_pct +
       (decompose p1 F1).hml_pct + (decompose p1 F1).idiosyncratic_pct - 100|
       ≤ 1/50) :=
  ⟨totalVar_p1F1_pos, by rw [totalRaw_p1F1]; norm_num,
   C1_buckets_sum p1 F1 totalVar_p1F1_pos (by rw [totalRaw_p1F1]; norm_num)⟩

/-- Claim C9, amended (corrected): in the non-degenerate case
`total_daily_var` is the raw total variance and `total_annual_vol` equals
`sqrt(total_daily_var × 252) × 100` rounded to two decimals — not that
product exactly. -/
theorem C9_annual_vol_formula {n : ℕ} (p : PortfolioInputs n)
    (F : Matrix (Fin 3) (Fin 3) ℚ) (h : 0 < totalVar p F) :
    (decompose p F).total_daily_var = totalVar p F ∧
    totalAnnualVol p F =
      round2 (Real.sqrt (((decompose p F).total_daily_var : ℝ) * 252) * 100) := by
  have hd : (decompose p F).total_daily_var = totalVar p F := by
    rw [decompose_of_pos p F h]
  refine ⟨hd, ?_⟩
  rw [hd, totalAnnualVol, if_neg (not_le.mpr h)]

/-- Counterexample to C9 as stated: for the portfolio `pc` with total daily
variance `1/126`, the exact annualization is `100·√2 ≈ 141.4213…`, while the
code returns the rounded `141.42`. -/
theorem C9_counterexample :
    0 < totalVar pc Fc ∧
    totalAnnualVol pc Fc ≠
      Real.sqrt (((decompose pc Fc).total_daily_var : ℝ) * 252) * 100 := by
  have hT : totalVar pc Fc = 1/126 := totalVar_pcFc
  have hTpos : 0 < totalVar pc Fc := by rw [hT]; norm_num
  refine ⟨hTpos, ?_⟩
  have hd : (decompose pc Fc).total_daily_var = totalVar pc Fc := by
    rw [decompose_of_pos pc Fc hTpos]
  rw [hd, hT]
  have harg : (((1 : ℚ)/126 : ℚ) : ℝ) * 252 = 2 := by
    push_cast
    norm_num
  rw [totalAnnualVol, if_neg (not_le.mpr hTpos), hT, harg]
  have hs0 : (0 : ℝ) ≤ Real.sqrt 2 := Real.sqrt_nonneg 2
  have hs2 : Real.sqrt 2 ^ 2 = 2 := Real.sq_sqrt (by norm_num)
  have hlow : (14142 : ℝ) ≤ Real.sqrt 2 * 100 * 100 := by
    nlinarith [hs2, hs0]
  have hhigh : Real.sqrt 2 * 100 * 100 < 14142 + 1/2 := by
    nlinarith [hs2, hs0]
  have hfl : ⌊Real.sqrt 2 * 100 * 100⌋ = 14142 := by
    rw [Int.floor_eq_iff]
    constructor
    · push_cast
      linarith
    · push_cast
      linarith
  have hr2 : round2 (Real.sqrt 2 * 100) = (14142 : ℝ)/100 := by
    rw [round2, roundHalfEven, hfl, if_pos]
    · norm_num
    · push_cast
      linarith
  rw [hr2]
  intro heq
  have hs : Real.sqrt 2 * 100 = 14142/100 := heq.symm
  nlinarith [hs2, hs]

/-- Witness for the amended C9. -/
theorem C9_annual_vol_formula_witness :
    0 < totalVar p1 F1 ∧
    ((decompose p1 F1).total_daily_var = totalVar p1 F1 ∧
     totalAnnualVol p1 F1 =
       round2 (Real.sqrt (((decompose p1 F1).total_daily_var : ℝ) * 252) * 100)) :=
  ⟨totalVar_p1F1_pos, C9_annual_vol_formula p1 F1 totalVar_p1F1_pos⟩

/- ---------------------- scaling lemmas for claim C7 ---------------------- -/

lemma totalVar_scale {n : ℕ} (p : PortfolioInputs n)
    (F : Matrix (Fin 3) (Fin 3) ℚ) (c : ℚ) :
    totalVar (scaleWeights p c) F = c^2 * totalVar p F := by
  show (c • p.weights) ⬝ᵥ (sigma p F *ᵥ (c • p.weights)) = _
  rw [Matrix.mulVec_smul, smul_dotProduct, dotProduct_smul, smul_eq_mul,
    smul_eq_mul, totalVar]
  ring

lemma totalSystematic_scale {n : ℕ} (p : PortfolioInputs n)
    (F : Matrix (Fin 3) (Fin 3) ℚ) (c : ℚ) :
    totalSystematic (scaleWeights p c) F = c^2 * totalSystematic p F := by
  show (c • p.weights) ⬝ᵥ (systematicCov p F *ᵥ (c • p.weights)) = _
  rw [Matrix.mulVec_smul, smul_dotProduct, dotProduct_smul, smul_eq_mul,
    smul_eq_mul, totalSystematic]
  ring

lemma idioVar_scale {n : ℕ} (p : PortfolioInputs n) (c : ℚ) :
    idioVar (scaleWeights p c) = c^2 * idioVar p := by
  show (c • p.weights) ⬝ᵥ (D p *ᵥ (c • p.weights)) = _
  rw [Matrix.mulVec_smul, smul_dotProduct, dotProduct_smul, smul_eq_mul,
    smul_eq_mul, idioVar]
  ring

lemma rawContrib_scale {n : ℕ} (p : PortfolioInputs n)
    (F : Matrix (Fin 3) (Fin 3) ℚ) (c : ℚ) (k : Fin 3) :
    rawContrib (scaleWeights p c) F k = c^2 * rawContrib p F k := by
  have hvec : (fun i => (scaleWeights p c).weights i * bcol (scaleWeights p c) k i)
      = c • fun i => p.weights i * bcol p k i := by
    funext i
    show c * p.weights i * bcol p k i = c * (p.weights i * bcol p k i)
    ring
  rw [rawContrib, rawContrib, hvec, smul_dotProduct, dotProduct_smul,
    smul_eq_mul, smul_eq_mul]
  rw [show c * (c * ((fun i => p.weights i * bcol p k i) ⬝ᵥ
        fun i => p.weights i * bcol p k i)) * F k k
      = c^2 * (((fun i => p.weights i * bcol p k i) ⬝ᵥ
        fun i => p.weights i * bcol p k i) * F k k) from by ring]
  rw [mul_max_of_nonneg _ _ (sq_nonneg c), mul_zero]

lemma pureFactorSum_scale {n : ℕ} (p : PortfolioInputs n)
    (F : Matrix (Fin 3) (Fin 3) ℚ) (c : ℚ) :
    pureFactorSum (scaleWeights p c) F = c^2 * pureFactorSum p F := by
  rw [pureFactorSum, pureFactorSum, Finset.mul_sum]
  exact Finset.sum_congr rfl fun k _ => rawContrib_scale p F c k

lemma crossTerms_scale {n : ℕ} (p : PortfolioInputs n)
    (F : Matrix (Fin 3) (Fin 3) ℚ) (c : ℚ) :
    crossTerms (scaleWeights p c) F = c^2 * crossTerms p F := by
  rw [crossTerms, crossTerms, totalSystematic_scale, pureFactorSum_scale]
  ring

lemma apportioned_scale {n : ℕ} (p : PortfolioInputs n)
    (F : Matrix (Fin 3) (Fin 3) ℚ) (c : ℚ) (hc : c ≠ 0) (k : Fin 3) :
    apportioned (scaleWeights p c) F k = c^2 * apportioned p F k := by
  have hc2 : 0 < c^2 := lt_of_le_of_ne (sq_nonneg c) (Ne.symm (pow_ne_zero 2 hc))
  by_cases hcond : 0 < pureFactorSum p F ∧ crossTerms p F ≠ 0
  · have hcond' : 0 < pureFactorSum (scaleWeights p c) F ∧
        crossTerms (scaleWeights p c) F ≠ 0 := by
      rw [pureFactorSum_scale, crossTerms_scale]
      exact ⟨mul_pos hc2 hcond.1, mul_ne_zero (ne_of_gt hc2) hcond.2⟩
    rw [apportioned, apportioned, if_pos hcond', if_pos hcond,
      rawContrib_scale, crossTerms_scale, pureFactorSum_scale,
      mul_div_mul_left _ _ (ne_of_gt hc2)]
    ring
  · have hcond' : ¬ (0 < pureFactorSum (scaleWeights p c) F ∧
        crossTerms (scaleWeights p c) F ≠ 0) := by
      rw [pureFactorSum_scale, crossTerms_scale]
      rintro ⟨h1, h2⟩
      refine hcond ⟨?_, ?_⟩
      · rcases mul_pos_iff.mp h1 with ⟨_, hp⟩ | ⟨hneg, _⟩
        · exact hp
        · exact absurd hneg (not_lt.mpr hc2.le)
      · intro hx
        exact h2 (by rw [hx, mul_zero])
    rw [apportioned, apportioned, if_neg hcond', if_neg hcond, rawContrib_scale]

lemma bucketPct_scale {n : ℕ} (p : PortfolioInputs n)
    (F : Matrix (Fin 3) (Fin 3) ℚ) (c : ℚ) (hc : c ≠ 0) (i : Fin 4) :
    bucketPct (scaleWeights p c) F i = bucketPct p F i := by
  have hc2 : (0 : ℚ) < c^2 := lt_of_le_of_ne (sq_nonneg c) (Ne.symm (pow_ne_zero 2 hc))
  fin_cases i
  · show apportioned (scaleWeights p c) F 0 / totalVar (scaleWeights p c) F * 100
      = apportioned p F 0 / totalVar p F * 100
    rw [apportioned_scale p F c hc, totalVar_scale,
      mul_div_mul_left _ _ (ne_of_gt hc2)]
  · show apportioned (scaleWeights p c) F 1 / totalVar (scaleWeights p c) F * 100
      = apportioned p F 1 / totalVar p F * 100
    rw [apportioned_scale p F c hc, totalVar_scale,
      mul_div_mul_left _ _ (ne_of_gt hc2)]
  · show apportioned (scaleWeights p c) F 2 / totalVar (scaleWeights p c) F * 100
      = apportioned p F 2 / totalVar p F * 100
    rw [apportioned_scale p F c hc, totalVar_scale,
      mul_div_mul_left _ _ (ne_of_gt hc2)]
  · show idioVar (scaleWeights p c) / totalVar (scaleWeights p c) F * 100
      = idioVar p / totalVar p F * 100
    rw [idioVar_scale, totalVar_scale, mul_div_mul_left _ _ (ne_of_gt hc2)]

lemma totalRaw_scale {n : ℕ} (p : PortfolioInputs n)
    (F : Matrix (Fin 3) (Fin 3) ℚ) (c : ℚ) (hc : c ≠ 0) :
    totalRaw (scaleWeights p c) F = totalRaw p F := by
  rw [totalRaw, totalRaw]
  exact Finset.sum_congr rfl fun i _ => by
    rw [clampedPcts, clampedPcts, bucketPct_scale p F c hc]

lemma finalPct_scale {n : ℕ} (p : PortfolioInputs n)
    (F : Matrix (Fin 3) (Fin 3) ℚ) (c : ℚ) (hc : c ≠ 0) (i : Fin 4) :
    finalPct (scaleWeights p c) F i = finalPct p F i := by
  rw [finalPct, finalPct, totalRaw_scale p F c hc, clampedPcts, clampedPcts,
    bucketPct_scale p F c hc]

/-- Claim C7 (confirmed): scaling the weight vector by any positive constant
`c` leaves the four returned bucket percentages unchanged and multiplies
`total_daily_var` by exactly `c²`. -/
theorem C7_scale_invariance {n : ℕ} (p : PortfolioInputs n)
    (F : Matrix (Fin 3) (Fin 3) ℚ) (c : ℚ) (hc : 0 < c) :
    (decompose (scaleWeights p c) F).market_pct = (decompose p F).market_pct ∧
    (decompose (scaleWeights p c) F).smb_pct = (decompose p F).smb_pct ∧
    (decompose (scaleWeights p c) F).hml_pct = (decompose p F).hml_pct ∧
    (decompose (scaleWeights p c) F).idiosyncratic_pct
      = (decompose p F).idiosyncratic_pct ∧
    (decompose (scaleWeights p c) F).total_daily_var
      = c^2 * (decompose p F).total_daily_var := by
  have hc' : c ≠ 0 := ne_of_gt hc
  have hc2 : (0 : ℚ) < c^2 := lt_of_le_of_ne (sq_nonneg c) (Ne.symm (pow_ne_zero 2 hc'))
  by_cases hT : totalVar p F ≤ 0
  · have hT' : totalVar (scaleWeights p c) F ≤ 0 := by
      rw [totalVar_scale]
      exact mul_nonpos_of_nonneg_of_nonpos hc2.le hT
    rw [decompose_of_nonpos p F hT, decompose_of_nonpos _ F hT']
    exact ⟨rfl, rfl, rfl, rfl, by show (0 : ℚ) = c^2 * 0; ring⟩
  · push_neg at hT
    have hT' : 0 < totalVar (scaleWeights p c) F := by
      rw [totalVar_scale]
      exact mul_pos hc2 hT
    rw [decompose_of_pos p F hT, decompose_of_pos _ F hT']
    refine ⟨?_, ?_, ?_, ?_, ?_⟩
    · show round2 (finalPct (scaleWeights p c) F 0) = round2 (finalPct p F 0)
      rw [finalPct_scale p F c hc']
    · show round2 (finalPct (scaleWeights p c) F 1) = round2 (finalPct p F 1)
      rw [finalPct_scale p F c hc']
    · show round2 (finalPct (scaleWeights p c) F 2) = round2 (finalPct p F 2)
      rw [finalPct_scale p F c hc']
    · show round2 (finalPct (scaleWeights p c) F 3) = round2 (finalPct p F 3)
      rw [finalPct_scale p F c hc']
    · show totalVar (scaleWeights p c) F = c^2 * totalVar p F
      exact totalVar_scale p F c

/-- Witness for C7: doubling the weights of `p1` leaves the percentages
unchanged and quadruples the daily variance. -/
theorem C7_scale_invariance_witness :
    (0 : ℚ) < 2 ∧
    ((decompose (scaleWeights p1 2) F1).market_pct = (decompose p1 F1).market_pct ∧
     (decompose (scaleWeights p1 2) F1).smb_pct = (decompose p1 F1).smb_pct ∧
     (decompose (scaleWeights p1 2) F1).hml_pct = (decompose p1 F1).hml_pct ∧
     (decompose (scaleWeights p1 2) F1).idiosyncratic_pct
       = (decompose p1 F1).idiosyncratic_pct ∧
     (decompose (scaleWeights p1 2) F1).total_daily_var
       = 2^2 * (decompose p1 F1).total_daily_var) :=
  ⟨by norm_num, C7_scale_invariance p1 F1 2 (by norm_num)⟩

/- ---------------------- flamegraph lemmas for claim C10 ---------------------- -/

lemma sorted_makeFactorChildren (sc : List StockContribution)
    (betas : String → BetaInfo) (key : StockContribution → ℚ) :
    List.Sorted leafGE (makeFactorChildren sc betas key) :=
  List.sorted_insertionSort leafGE _

lemma mem_makeFactorChildren (sc : List StockContribution)
    (betas : String → BetaInfo) (key : StockContribution → ℚ) (leaf : FlameLeaf) :
    leaf ∈ makeFactorChildren sc betas key ↔
      ∃ c ∈ sc, (1 : ℚ)/2 < key c ∧ leaf = leafOf betas key c := by
  rw [makeFactorChildren, (List.perm_insertionSort leafGE _).mem_iff]
  rw [List.mem_map]
  constructor
  · rintro ⟨a, haf, rfl⟩
    rw [List.mem_filter] at haf
    exact ⟨a, haf.1, by simpa using haf.2, rfl⟩
  · rintro ⟨cc, hcmem, hgt, rfl⟩
    exact ⟨cc, List.mem_filter.mpr ⟨hcmem, by simpa using hgt⟩, rfl⟩

/-- Claim C10 (confirmed): the flamegraph's four factor-bucket nodes carry the
decomposition's final bucket percentages and the bucket-specific
`make_factor_children` lists; each such list is sorted descending by value and
contains exactly the leaves of instruments whose contribution to that bucket
exceeds the 0.5-percentage-point threshold, each leaf built from the
instrument's loadings and weight. -/
theorem C10_flamegraph_structure (d : VarianceDecomposition)
    (betas : String → BetaInfo) :
    ((buildFlamegraphJson d betas).children.map fun nd =>
        (nd.name, nd.value, nd.factor)) =
      [("Market Beta", d.market_pct, "market"),
       ("SMB (Size)", d.smb_pct, "smb"),
       ("HML (Value)", d.hml_pct, "hml"),
       ("Idiosyncratic", d.idiosyncratic_pct, "idiosyncratic")] ∧
    ((buildFlamegraphJson d betas).children.map fun nd => nd.children) =
      [makeFactorChildren d.stock_contributions betas
         fun c => c.market_contribution,
       makeFactorChildren d.stock_contributions betas
         fun c => c.smb_contribution,
       makeFactorChildren d.stock_contributions betas
         fun c => c.hml_contribution,
       makeFactorChildren d.stock_contributions betas
         fun c => c.idio_contribution] ∧
    (∀ sc key, List.Sorted leafGE (makeFactorChildren sc betas key)) ∧
    (∀ sc key leaf, leaf ∈ makeFactorChildren sc betas key ↔
      ∃ c ∈ sc, (1 : ℚ)/2 < key c ∧ leaf = leafOf betas key c) :=
  ⟨rfl, rfl, fun sc key => sorted_makeFactorChildren sc betas key,
   fun sc key leaf => mem_makeFactorChildren sc betas key leaf⟩

/-- Witness for C10: a concrete two-stock decomposition; the leaf for stock
`A` is a member of the market bucket's children. -/
theorem C10_flamegraph_structure_witness :
    List.Sorted leafGE
      (makeFactorChildren sc0 b0 fun c => c.market_contribution) ∧
    (leaf0 ∈ makeFactorChildren sc0 b0 (fun c => c.market_contribution) ↔
      ∃ c ∈ sc0, (1 : ℚ)/2 < c.market_contribution ∧
        leaf0 = leafOf b0 (fun c => c.market_contribution) c) :=
  ⟨(C10_flamegraph_structure d0 b0).2.2.1 sc0 _,
   (C10_flamegraph_structure d0 b0).2.2.2 sc0 _ leaf0⟩

end PortfolioRisk
